import Mathlib

/-!
Verification of the placement allocation engine of the `vertigo` repository
(`sheets/sheets.py`, `sheets/people.py`, `sheets/_class.py`).

The spreadsheet values returned by the Google Sheets API are modelled as
row-major lists of rows of strings (`Spreadsheet`).  `Sheet.get_column(j)`
returns, for every row, the cell at column `j` or `None` when the row is
too short; we model that as `Option String`.

`StudentRegistrationSheet.place_student` is embedded as `placeChoice`
(the body of the `for code in choices` loop) folded by `placeLoop` /
`place_student`.  Python exceptions that can escape the method
(`ValueError` from `list.index`, `TypeError`/`ValueError` from `int(...)`)
are modelled with `Except PlaceErr`.
-/

/-- Python `str.strip()`: drop surrounding whitespace. -/
def pyStrip (s : String) : String :=
  ⟨((s.data.dropWhile Char.isWhitespace).reverse.dropWhile Char.isWhitespace).reverse⟩

/-- Python `str.lower()` (ASCII case folding, which is all the data uses). -/
def pyLower (s : String) : String :=
  ⟨s.data.map Char.toLower⟩

/-- The value of a decimal digit character. -/
def digitVal (c : Char) : Option Nat :=
  if '0' ≤ c ∧ c ≤ '9' then some (c.toNat - 48) else none

/-- Accumulate a decimal numeral; `none` on a non-digit. -/
def digitsValAux : Nat → List Char → Option Nat
  | acc, [] => some acc
  | acc, c :: cs =>
    match digitVal c with
    | some d => digitsValAux (10 * acc + d) cs
    | none => none

/-- Python `int(s)`: surrounding whitespace, an optional sign, then at least
one decimal digit; any other input raises `ValueError` (`none`). -/
def pyInt (s : String) : Option Int :=
  match (pyStrip s).data with
  | [] => none
  | '-' :: cs =>
    if cs = [] then none else (digitsValAux 0 cs).map (fun n => -(n : Int))
  | '+' :: cs =>
    if cs = [] then none else (digitsValAux 0 cs).map (fun n => (n : Int))
  | cs => (digitsValAux 0 cs).map (fun n => (n : Int))

/-- A sheet's values: row-major list of rows of string cells
(`self.spreadsheet` in `sheets.py`). -/
abbrev Spreadsheet := List (List String)

/-- `Sheet.get_column(j)`: the cell of each row at column `j`, `none` when the
row is shorter (the Python code appends `None` on `IndexError`).  (Python
additionally returns `None` instead of a list when every cell is missing;
that value would crash its callers, so sheets are assumed non-degenerate.) -/
def getColumn (s : Spreadsheet) (j : Nat) : List (Option String) :=
  s.map (fun row => row.get? j)

/-- `list.index(x)` in Python: index of the first occurrence, or `none`
(where Python raises `ValueError`). -/
def listIndex : List (Option String) → Option String → Option Nat
  | [], _ => none
  | a :: as, x => if a = x then some 0 else (listIndex as x).map (· + 1)

/-- Python `zip` of four equal-length lists (truncates to the shortest). -/
def zip4 {α β γ δ : Type} : List α → List β → List γ → List δ → List (α × β × γ × δ)
  | a :: as, b :: bs, c :: cs, d :: ds => (a, b, c, d) :: zip4 as bs cs ds
  | _, _, _, _ => []

/-- `stud_info` in `get_students_parents` / `place_student`:
`(r.student_first, r.student_last, r.parent1_first, r.parent1_last)`. -/
structure StudInfo where
  sFirst : String
  sLast : String
  pFirst : String
  pLast : String
  deriving DecidableEq

/-- The fields of a `Student` object read or written by `place_student`,
`get_students_parents` and `write_placements`.  `id` is an `Option` because
`place_student` overwrites it with a roster cell that may be missing. -/
structure StudentR where
  id : Option String
  parents : List String
  classes : List String
  deriving DecidableEq

/-- Python exceptions that can escape `place_student`. -/
inductive PlaceErr where
  /-- `ValueError` from `parent_sheet.get_column(0).index(...)`. -/
  | parentUuidMissing
  /-- `ValueError` from `main_sheet.get_column(0).index(code)`. -/
  | codeNotInMaster
  /-- `TypeError`/`ValueError` from `int(main_sheet.get_column(8)[...])`. -/
  | capUnreadable
  deriving DecidableEq

/-- The mutable state threaded through one call of `place_student`:
the student's `classes` and `id`, the local `found`, `unaccepted`,
`invalid`, and the shared `offset_dict` (`class_to_planned_writes`). -/
structure PlaceState where
  classes : List String
  id : Option String
  found : Bool
  unaccepted : List String
  invalid : List String
  offsets : List (String × Int)
  deriving DecidableEq

/-- `offset_dict[code]`.  The dict is created with a key for every sheet in
`all_rosters.sheet_data` and is only read at keys that are present
(roster lookup succeeded first), so the `0` default is never observable. -/
def offGet : List (String × Int) → String → Int
  | [], _ => 0
  | (k, v) :: rest, c => if k = c then v else offGet rest c

/-- `offset_dict[code] += 1`. -/
def offBump (o : List (String × Int)) (c : String) : List (String × Int) :=
  o.map (fun p => if p.1 = c then (p.1, p.2 + 1) else p)

/-- `all_rosters.sheet_data[code]` (`KeyError` modelled as `none`). -/
def lookupSheet : List (String × Spreadsheet) → String → Option Spreadsheet
  | [], _ => none
  | (k, s) :: rest, c => if k = c then some s else lookupSheet rest c

/-- The read-only inputs of `place_student`: `all_rosters.sheet_data`
(keyed by class code, plus the `"Classes"` master sheet) and
`parent_sheet`. -/
structure Env where
  sheetData : List (String × Spreadsheet)
  parentSheet : Spreadsheet

/-- `main_sheet = SheetLike(all_rosters.sheet_data["Classes"])`
(the key is always present in the real data). -/
def mainSheet (env : Env) : Spreadsheet :=
  (lookupSheet env.sheetData "Classes").getD []

/-- `int(main_sheet.get_column(8)[main_sheet.get_column(0).index(code)])`. -/
def lookupCap (main : Spreadsheet) (code : String) : Except PlaceErr Int :=
  match listIndex (getColumn main 0) (some code) with
  | none => .error .codeNotInMaster
  | some idx =>
    match (getColumn main 8).get? idx with
    | some (some s) =>
      match pyInt s with
      | some n => .ok n
      | none => .error .capUnreadable
    | _ => .error .capUnreadable

/-- `roster_names = list(zip(roster.get_column(1), roster.get_column(2),
roster.get_column(3), roster.get_column(6)))`:
(uuid, first name, last name, parent-1 uuid) per roster row. -/
def rosterNames (roster : Spreadsheet) :
    List (Option String × Option String × Option String × Option String) :=
  zip4 (getColumn roster 1) (getColumn roster 2) (getColumn roster 3) (getColumn roster 6)

/-- The `for i in range(1, len(roster_names))` search loop of
`place_student`: called on `(rosterNames roster).drop 1`.  A row is examined
only while `found` is still false; on a first/last-name match the row's
parent-1 uuid is looked up in the parent sheet (Python raises `ValueError`
when it is absent), and if the parents' first/last names also match, the
student is re-seated under the row's uuid and `found` is set.  (The
`except IndexError: continue` in the source is unreachable: the index
returned by `.index` is always in range and tuple slicing never raises.) -/
def searchRows (parentSheet : Spreadsheet) (si : StudInfo) :
    PlaceState → List (Option String × Option String × Option String × Option String) →
    Except PlaceErr PlaceState
  | st, [] => .ok st
  | st, r :: rs =>
    if st.found then searchRows parentSheet si st rs
    else if r.2.1 = some si.sFirst ∧ r.2.2.1 = some si.sLast then
      match listIndex (getColumn parentSheet 0) r.2.2.2 with
      | none => .error .parentUuidMissing
      | some idx =>
        if (parentSheet.get? idx).bind (fun row => row.get? 1) = some si.pFirst
            ∧ (parentSheet.get? idx).bind (fun row => row.get? 2) = some si.pLast then
          searchRows parentSheet si { st with id := r.1, found := true } rs
        else searchRows parentSheet si st rs
    else searchRows parentSheet si st rs

/-- One iteration of the `for code in choices` loop of `place_student`:
skip blank codes; skip codes session-equivalent (same first 4 characters)
to a held class; `KeyError` on the roster lookup classifies the code as
invalid; otherwise search the roster for the student, read the class
capacity from the master sheet, and run the three-way
accept / full / found-accept decision. -/
def placeChoice (env : Env) (si : StudInfo) (st : PlaceState) (code : String) :
    Except PlaceErr PlaceState :=
  if pyStrip code = "" then .ok st
  else if st.classes.any (fun c => decide (code.take 4 = c.take 4)) then .ok st
  else
    match lookupSheet env.sheetData code with
    | none => .ok { st with invalid := st.invalid ++ [code] }
    | some roster =>
      match searchRows env.parentSheet si st ((rosterNames roster).drop 1) with
      | .error e => .error e
      | .ok st1 =>
        match lookupCap (mainSheet env) code with
        | .error e => .error e
        | .ok cap =>
          if ((rosterNames roster).length : Int) - 1 + offGet st1.offsets code < cap
              ∧ st1.found = false then
            .ok { st1 with classes := st1.classes ++ [code],
                           offsets := offBump st1.offsets code }
          else if cap ≤ ((rosterNames roster).length : Int) - 1 + offGet st1.offsets code
              ∧ st1.found = false then
            .ok { st1 with unaccepted := st1.unaccepted ++ [code] }
          else if st1.found = true then
            .ok { st1 with classes := st1.classes ++ [code] }
          else
            .ok st1

/-- The `for code in choices` loop, threading the state (an exception
aborts the remaining choices). -/
def placeLoop (env : Env) (si : StudInfo) :
    PlaceState → List String → Except PlaceErr PlaceState
  | st, [] => .ok st
  | st, code :: rest =>
    match placeChoice env si st code with
    | .ok st1 => placeLoop env si st1 rest
    | .error e => .error e

/-- `StudentRegistrationSheet.place_student`: local `unaccepted`, `invalid`
and `found` start empty/false, then every choice is processed in order. -/
def place_student (env : Env) (si : StudInfo) (stud : StudentR)
    (offsets0 : List (String × Int)) (choices : List String) :
    Except PlaceErr PlaceState :=
  placeLoop env si
    { classes := stud.classes, id := stud.id, found := false,
      unaccepted := [], invalid := [], offsets := offsets0 } choices

deriving instance DecidableEq for Except

/-- The student uuids already listed on a class roster
(`ClassRosterSheet.get_classes` reads `roster.get_column(1)[i]` for
`i in range(1, ...)` into `classes[code].students`). -/
def rosterUuids (roster : Spreadsheet) : List (Option String) :=
  (getColumn roster 1).drop 1

/-- The guard of `ClassRosterSheet.write_placements`: a roster row is
appended for a placement exactly when
`student.id not in self.classes[code].students`. -/
def writesRowFor (classStudents : List (Option String)) (id : Option String) : Bool :=
  decide (id ∉ classStudents)

namespace Student

/-- `Student.MAX_ENROLLMENTS` in `people.py`. -/
def MAX_ENROLLMENTS : Nat := 3

/-- `Student.set_classes` in `people.py`: raises `ValueError` when given
more than `MAX_ENROLLMENTS` classes, else stores them. -/
def set_classes (classes : List String) : Except String (List String) :=
  if classes.length > MAX_ENROLLMENTS then
    .error "A Student cannot have more than MAX_ENROLLMENTS classes."
  else
    .ok classes

end Student

/-- The fields of a `Parent` object used by the registry logic of
`get_students_parents` and `write_parents`. -/
structure ParentR where
  id : String
  first : String
  last : String
  email : String
  children : List (Option String)
  deriving DecidableEq

/-- The `Parent.__init__` / `Person.__init__` path (`people.py`): names are
stripped, the email is stripped and lowercased, and a fresh uuid is
assigned (the uuid4 supply is passed in as `freshId`). -/
def mkParent (first last email : String) (children : List (Option String))
    (freshId : String) : ParentR :=
  { id := freshId, first := pyStrip first, last := pyStrip last,
    email := pyLower (pyStrip email), children := children }

/-- The parent-resolution block of `get_students_parents` (lines 614-625 /
630-641): scan `parents.values()` for the first entry whose
`(first, last, email)` equals `(f, l, e.lower())`; on a match append the
child to its `children` and return its id; otherwise append a freshly
built `Parent` with the child and return the fresh id. -/
def resolveParent : List ParentR → String → String → String → Option String → String →
    List ParentR × String
  | [], f, l, e, child, freshId =>
    ([mkParent f l e [child] freshId], freshId)
  | p :: ps, f, l, e, child, freshId =>
    if p.first = f ∧ p.last = l ∧ p.email = pyLower e then
      ({ p with children := p.children ++ [child] } :: ps, p.id)
    else
      let r := resolveParent ps f l e child freshId
      (p :: r.1, r.2)

/-- Python dict assignment `students[student.id] = student`:
overwrite an existing key or append a new binding. -/
def dictSet (m : List (Option String × StudentR)) (k : Option String) (v : StudentR) :
    List (Option String × StudentR) :=
  if m.any (fun p => decide (p.1 = k)) then
    m.map (fun p => if p.1 = k then (k, v) else p)
  else
    m ++ [(k, v)]

/-- The `students` and `parents` registries built by
`get_students_parents`. -/
structure RegState where
  students : List (Option String × StudentR)
  parents : List ParentR
  deriving DecidableEq

/-- The registry-update block of `get_students_parents` (lines 611-643):
a student is entered into `students` — and parent entries resolved and
given a child back-reference — only when `len(student.classes) > 0`;
parent 2 is processed only when `r.parent2_first.strip() != ""`.
(The source assigns `students[student.id]` first and then mutates the same
aliased object; the net registry contents are built here directly.) -/
def registerStudent (rs : RegState) (p1f p1l p1e p2f p2l p2e : String)
    (stud : StudentR) (fresh1 fresh2 : String) : RegState :=
  if stud.classes.length > 0 then
    let r1 := resolveParent rs.parents p1f p1l p1e stud.id fresh1
    let stud1 : StudentR := { stud with parents := stud.parents ++ [r1.2] }
    if pyStrip p2f ≠ "" then
      let r2 := resolveParent r1.1 p2f p2l p2e stud.id fresh2
      let stud2 : StudentR := { stud1 with parents := stud1.parents ++ [r2.2] }
      { students := dictSet rs.students stud.id stud2, parents := r2.1 }
    else
      { students := dictSet rs.students stud.id stud1, parents := r1.1 }
  else
    rs

/-- A row of the "Invalid Code Emails" / "Full Class Emails" log:
`(student full name, parent-1 email, parent-2 email, class code)` —
the tuples in `invalid_sheet_info` / `full_class_sheet_info`. -/
abbrev NotifEntry := String × String × String × String

/-- The duplicate-notification scan of `get_students_parents`
(lines 648-656 / 676-684): rows `1..length-1` of the log are searched for
an entry with the same student full name and code one of whose stored
recipients is among the current recipients; the header row at index 0 is
skipped. -/
def notifMatch (info : List NotifEntry) (fullName : String) (recipients : List String)
    (code : String) : Bool :=
  (info.drop 1).any (fun e =>
    decide (fullName = e.1) && decide (code = e.2.2.2) &&
      (decide (e.2.1 ∈ recipients) || decide (e.2.2.1 ∈ recipients)))

/-- One notification attempt (the `for`/`else` around
`send_invalid_code_emails` / `send_class_full_emails`): if a matching log
row exists nothing happens; otherwise the email is sent (`true`) and
`[full_name, parent1_email, parent2_email, code]` is appended to the log
sheet and to the in-memory list. -/
def notifyOnce (info : List NotifEntry) (fullName p1e p2e code : String) :
    Bool × List NotifEntry :=
  if notifMatch info fullName [p1e, p2e] code then
    (false, info)
  else
    (true, info ++ [(fullName, p1e, p2e, code)])

/-! ## Concrete sheet data used by witnesses and counterexamples -/

/-- Header of a class roster sheet (`ClassRosterSheet.add_sheets`). -/
def rosterHeader : List String :=
  ["#", "UUID", "First Name", "Last Name", "Email", "Note", "Parent 1 UUID", "Parent 2 UUID"]

/-- Header of the `Classes` master sheet. -/
def masterHeader : List String :=
  ["Class Code", "Course", "Level", "Days", "Time", "Teacher 1", "Teacher 2", "Location", "Cap"]

/-- Header of the `Parents` sheet. -/
def parentsHeader : List String :=
  ["UUID", "First Name", "Last Name", "Email"]

/-- Roster of class `11111`: one seated student, Ann Lee, child of parent `p1`. -/
def rosterA1 : Spreadsheet :=
  [rosterHeader, ["1", "u1", "Ann", "Lee", "ann@x.com", "", "p1"]]

/-- Roster of class `22221`: one seated student, Bob Oh (a stranger). -/
def rosterA2 : Spreadsheet :=
  [rosterHeader, ["1", "u2", "Bob", "Oh", "bob@x.com", "", "p1"]]

/-- Master sheet: classes `11111` and `22221`, both with capacity 1. -/
def masterA : Spreadsheet :=
  [masterHeader,
   ["11111", "Java", "Beginner", "Mon & Wed", "12-1", "t1", "", "R1", "1"],
   ["22221", "Python", "Intermediate", "Tue & Thur", "2-3", "t2", "", "R2", "1"]]

/-- Parents sheet: one parent, Pat Lee. -/
def parentsA : Spreadsheet :=
  [parentsHeader, ["p1", "Pat", "Lee", "pat@x.com"]]

/-- Environment with both classes of `masterA` at capacity. -/
def envA : Env :=
  { sheetData := [("11111", rosterA1), ("22221", rosterA2), ("Classes", masterA)],
    parentSheet := parentsA }

/-- Submission identity: Ann Lee, parent Pat Lee (matches `rosterA1`). -/
def siA : StudInfo := ⟨"Ann", "Lee", "Pat", "Lee"⟩

/-- Ann's freshly built `Student` object for the new submission. -/
def studA : StudentR := { id := some "s-new", parents := [], classes := [] }

/-- `class_to_planned_writes` for `envA`. -/
def offA : List (String × Int) := [("11111", 0), ("22221", 0), ("Classes", 0)]

/-- The state `place_student` reaches on `envA` with choices
`["11111", "22221"]`: both codes accepted through the `found` flag. -/
def stFinalA : PlaceState :=
  { classes := ["11111", "22221"], id := some "u1", found := true,
    unaccepted := [], invalid := [], offsets := offA }

/-- Roster of class `31111`: full (capacity 1) with a stranger. -/
def rosterB1 : Spreadsheet :=
  [rosterHeader, ["1", "z1", "Zed", "Zog", "z@x.com", "", "p1"]]

/-- Roster of class `31112`: one seated stranger, capacity 2 (one open seat). -/
def rosterB2 : Spreadsheet :=
  [rosterHeader, ["1", "z2", "Yan", "Yu", "y@x.com", "", "p1"]]

/-- Roster of class `31113`: empty. -/
def rosterB3 : Spreadsheet := [rosterHeader]

/-- Master sheet for the three `3111x` sections. -/
def masterB : Spreadsheet :=
  [masterHeader,
   ["31111", "Scratch", "Beginner", "Mon & Wed", "12-1", "t1", "", "R1", "1"],
   ["31112", "Scratch", "Beginner", "Mon & Wed", "12-1", "t1", "", "R1", "2"],
   ["31113", "Scratch", "Beginner", "Mon & Wed", "12-1", "t1", "", "R1", "5"]]

/-- Environment for the priority-ordering scenario. -/
def envB : Env :=
  { sheetData := [("31111", rosterB1), ("31112", rosterB2), ("31113", rosterB3),
                  ("Classes", masterB)],
    parentSheet := parentsA }

/-- A brand-new student, on no roster. -/
def siB : StudInfo := ⟨"Cam", "Diaz", "Pam", "Diaz"⟩

/-- Cam's `Student` object. -/
def studB : StudentR := { id := some "s-cam", parents := [], classes := [] }

/-- `class_to_planned_writes` for `envB`. -/
def offB : List (String × Int) :=
  [("31111", 0), ("31112", 0), ("31113", 0), ("Classes", 0)]

/-- The initial loop state of `place_student` for Cam on `envB`. -/
def st0B : PlaceState :=
  { classes := [], id := some "s-cam", found := false,
    unaccepted := [], invalid := [], offsets := offB }

/-- Empty roster of class `44441`. -/
def rosterC : Spreadsheet := [rosterHeader]

/-- Master sheet with class `44441`, capacity 5. -/
def masterC : Spreadsheet :=
  [masterHeader, ["44441", "Web Development", "Beginner", "Mon & Wed", "12-1", "t1", "", "R1", "5"]]

/-- Empty parents sheet (header only). -/
def parentsH : Spreadsheet := [parentsHeader]

/-- Environment for the enrollment-limit scenario. -/
def envC : Env :=
  { sheetData := [("44441", rosterC), ("Classes", masterC)], parentSheet := parentsH }

/-- A student submission identity for the enrollment-limit scenario. -/
def siC : StudInfo := ⟨"Dee", "Fox", "Gil", "Fox"⟩

/-- A student already holding three pairwise non-session-equivalent codes. -/
def studC : StudentR :=
  { id := some "s-dee", parents := [], classes := ["11111", "22221", "33331"] }

/-- `class_to_planned_writes` for `envC`. -/
def offC : List (String × Int) := [("44441", 0), ("Classes", 0)]

/-- The state `place_student` reaches on `envC` with choices
`["44441", "99999"]`: a fourth class accepted, the bogus code classified
invalid, no exception. -/
def stFinalC : PlaceState :=
  { classes := ["11111", "22221", "33331", "44441"], id := some "s-dee", found := false,
    unaccepted := [], invalid := ["99999"],
    offsets := [("44441", 1), ("Classes", 0)] }

/-- Empty roster of class `11111` (capacity 3 in `masterD`). -/
def rosterD : Spreadsheet := [rosterHeader]

/-- Master sheet with class `11111`, capacity 3. -/
def masterD : Spreadsheet :=
  [masterHeader, ["11111", "Java", "Beginner", "Mon & Wed", "12-1", "t1", "", "R1", "3"]]

/-- Environment where `11111` exists and `11119` does not. -/
def envD : Env :=
  { sheetData := [("11111", rosterD), ("Classes", masterD)], parentSheet := parentsH }

/-- A brand-new student for `envD`. -/
def siD : StudInfo := ⟨"Eve", "Ng", "Hal", "Ng"⟩

/-- Eve's `Student` object. -/
def studD : StudentR := { id := some "s-eve", parents := [], classes := [] }

/-- `class_to_planned_writes` for `envD`. -/
def offD : List (String × Int) := [("11111", 0), ("Classes", 0)]

/-- Master sheet with class `11111`, capacity 9 (open seats). -/
def masterE : Spreadsheet :=
  [masterHeader, ["11111", "Java", "Beginner", "Mon & Wed", "12-1", "t1", "", "R1", "9"]]

/-- Environment for the identity-resolution scenario: Ann Lee is seated on
`11111` as `u1` (child of Pat Lee), and the class has open seats. -/
def envE : Env :=
  { sheetData := [("11111", rosterA1), ("Classes", masterE)], parentSheet := parentsA }

/-- A submission with the same student first/last name (and email, which
the search never reads) as the seated `u1`, but a different parent. -/
def siE : StudInfo := ⟨"Ann", "Lee", "Sam", "Kim"⟩

/-- The fresh `Student` object of that submission. -/
def studE : StudentR := { id := some "s-fresh", parents := [], classes := [] }

/-- `class_to_planned_writes` for `envE`. -/
def offE : List (String × Int) := [("11111", 0), ("Classes", 0)]

/-- The initial loop state of `place_student` for Ann on `envA`. -/
def st0A : PlaceState :=
  { classes := [], id := some "s-new", found := false,
    unaccepted := [], invalid := [], offsets := offA }

/-- The state after the roster search of choice `11111` matches Ann:
re-seated under `u1`, `found` set. -/
def st1A : PlaceState :=
  { classes := [], id := some "u1", found := true,
    unaccepted := [], invalid := [], offsets := offA }

/-- A state in which Ann has already been matched (`found = true`) and
holds `11111`. -/
def st2A : PlaceState :=
  { classes := ["11111"], id := some "u1", found := true,
    unaccepted := [], invalid := [], offsets := offA }

/-- The state `place_student` reaches for Cam on `envB` with choices
`["31111", "31112", "31113"]`: full first choice recorded, second choice
accepted, third (session-equivalent) choice skipped. -/
def stFinalB : PlaceState :=
  { classes := ["31112"], id := some "s-cam", found := false,
    unaccepted := ["31111"], invalid := [],
    offsets := [("31111", 0), ("31112", 1), ("31113", 0), ("Classes", 0)] }

/-- The initial loop state of `place_student` for Eve on `envD`. -/
def st0D : PlaceState :=
  { classes := [], id := some "s-eve", found := false,
    unaccepted := [], invalid := [], offsets := offD }

/-- The state `place_student` reaches for Eve on `envD` with choices
`["11111", "11119"]`. -/
def stFinalD : PlaceState :=
  { classes := ["11111"], id := some "s-eve", found := false,
    unaccepted := [], invalid := [], offsets := [("11111", 1), ("Classes", 0)] }

/-- The state `place_student` reaches on `envE`: accepted with the fresh
identifier, not matched to the seated `u1`. -/
def stFinalE : PlaceState :=
  { classes := ["11111"], id := some "s-fresh", found := false,
    unaccepted := [], invalid := [], offsets := [("11111", 1), ("Classes", 0)] }

/-- A notification log holding only its header row. -/
def logH : List NotifEntry :=
  [("Student Name", "Parent 1 Email", "Parent 2 Email", "Code")]

/-- A student whose allocation pass accepted no class. -/
def studZ : StudentR := { id := some "s-z", parents := [], classes := [] }

/-- A registry holding one parent and no students. -/
def rs0 : RegState :=
  { students := [], parents := [mkParent "Pat" "Lee" "pat@x.com" [] "p1"] }

/-! ## General lemmas about the roster search and the choice loop -/

/-- Once `found` is set, the search loop skips every remaining row and
leaves the state untouched. -/
theorem searchRows_found_true (ps : Spreadsheet) (si : StudInfo) :
    ∀ rows (st : PlaceState), st.found = true → searchRows ps si st rows = .ok st := by
  intro rows
  induction rows with
  | nil => intro st _; rfl
  | cons r rs ih =>
    intro st h
    simp only [searchRows, h, if_true]
    exact ih st h

/-- The roster search only ever writes `id` and `found`; classes, the
rejection lists and the batch offsets pass through unchanged. -/
theorem searchRows_frame (ps : Spreadsheet) (si : StudInfo) :
    ∀ rows (st st' : PlaceState), searchRows ps si st rows = .ok st' →
      st'.classes = st.classes ∧ st'.unaccepted = st.unaccepted ∧
      st'.invalid = st.invalid ∧ st'.offsets = st.offsets := by
  intro rows
  induction rows with
  | nil =>
    intro st st' h
    simp only [searchRows, Except.ok.injEq] at h
    subst h
    exact ⟨rfl, rfl, rfl, rfl⟩
  | cons r rs ih =>
    intro st st' h
    simp only [searchRows] at h
    split at h
    · exact ih _ st' h
    · split at h
      · split at h
        · cases h
        · split at h
          · exact ih { st with id := r.1, found := true } st' h
          · exact ih _ st' h
      · exact ih _ st' h

/-- A projection of `zip4` onto its first component recovers the first
list when it is the shortest. -/
theorem zip4_map_fst {α β γ δ : Type} :
    ∀ (as : List α) (bs : List β) (cs : List γ) (ds : List δ),
      as.length ≤ bs.length → as.length ≤ cs.length → as.length ≤ ds.length →
      (zip4 as bs cs ds).map (fun r => r.1) = as := by
  intro as
  induction as with
  | nil =>
    intro bs cs ds _ _ _
    cases bs <;> cases cs <;> cases ds <;> rfl
  | cons a as ih =>
    intro bs cs ds h1 h2 h3
    cases bs with
    | nil => simp at h1
    | cons b bs =>
      cases cs with
      | nil => simp at h2
      | cons c cs =>
        cases ds with
        | nil => simp at h3
        | cons d ds =>
          simp only [zip4, List.map_cons, List.cons.injEq, true_and]
          exact ih bs cs ds (Nat.succ_le_succ_iff.mp h1)
            (Nat.succ_le_succ_iff.mp h2) (Nat.succ_le_succ_iff.mp h3)

/-- Mapping commutes with dropping the header row. -/
theorem map_drop_one {α β : Type} (f : α → β) (l : List α) :
    (l.drop 1).map f = (l.map f).drop 1 := by
  cases l <;> rfl

/-- The first components of `roster_names` are exactly the roster's uuid
column. -/
theorem rosterNames_map_fst (roster : Spreadsheet) :
    (rosterNames roster).map (fun r => r.1) = getColumn roster 1 := by
  apply zip4_map_fst <;> simp [getColumn]

/-- When the search sets `found`, the re-seated identifier comes from one
of the scanned rows. -/
theorem searchRows_id_mem (ps : Spreadsheet) (si : StudInfo) :
    ∀ rows (st st' : PlaceState), searchRows ps si st rows = .ok st' →
      st.found = false → st'.found = true →
      st'.id ∈ rows.map (fun r => r.1) := by
  intro rows
  induction rows with
  | nil =>
    intro st st' h h0 h1
    simp only [searchRows, Except.ok.injEq] at h
    subst h
    rw [h0] at h1
    cases h1
  | cons r rs ih =>
    intro st st' h h0 h1
    simp only [searchRows, h0, Bool.false_eq_true, if_false] at h
    split at h
    · split at h
      · cases h
      · split at h
        · rw [searchRows_found_true ps si rs { st with id := r.1, found := true } rfl] at h
          injection h with h
          subst h
          exact List.mem_cons_self _ _
        · exact List.mem_cons_of_mem _ (ih st st' h h0 h1)
    · exact List.mem_cons_of_mem _ (ih st st' h h0 h1)

/-- When the search sets `found`, the re-seated identifier is one of the
uuids already listed on the roster. -/
theorem searchRows_id_in_uuids (ps : Spreadsheet) (si : StudInfo) (roster : Spreadsheet)
    (st st' : PlaceState) (h : searchRows ps si st ((rosterNames roster).drop 1) = .ok st')
    (h0 : st.found = false) (h1 : st'.found = true) :
    st'.id ∈ rosterUuids roster := by
  have hm := searchRows_id_mem ps si _ st st' h h0 h1
  rw [map_drop_one, rosterNames_map_fst] at hm
  exact hm

/-- One loop iteration either leaves the class list unchanged or appends
the processed code, and it appends only when the code is not
session-equivalent to any held class. -/
theorem placeChoice_classes_spec (env : Env) (si : StudInfo) (st : PlaceState) (code : String)
    (st' : PlaceState) (h : placeChoice env si st code = .ok st') :
    st'.classes = st.classes ∨
    (st'.classes = st.classes ++ [code] ∧
      st.classes.any (fun c => decide (code.take 4 = c.take 4)) = false) := by
  unfold placeChoice at h
  split at h
  · injection h with h; subst h; left; rfl
  · split at h
    · injection h with h; subst h; left; rfl
    · rename_i hany
      split at h
      · injection h with h; subst h; left; rfl
      · rename_i roster hro
        split at h
        · cases h
        · rename_i st1 hsr
          split at h
          · cases h
          · rename_i cap hcap
            have hfr := searchRows_frame env.parentSheet si _ st st1 hsr
            split at h
            · injection h with h; subst h
              right
              exact ⟨by rw [hfr.1], by simp at hany ⊢; exact hany⟩
            · split at h
              · injection h with h; subst h; left; exact hfr.1
              · split at h
                · injection h with h; subst h
                  right
                  exact ⟨by rw [hfr.1], by simp at hany ⊢; exact hany⟩
                · injection h with h; subst h; left; exact hfr.1

/-- One loop iteration preserves pairwise non-session-equivalence of the
held classes. -/
theorem placeChoice_pairwise (env : Env) (si : StudInfo) (st : PlaceState) (code : String)
    (st' : PlaceState) (h : placeChoice env si st code = .ok st')
    (hp : st.classes.Pairwise (fun a b => a.take 4 ≠ b.take 4)) :
    st'.classes.Pairwise (fun a b => a.take 4 ≠ b.take 4) := by
  rcases placeChoice_classes_spec env si st code st' h with h1 | ⟨h1, h2⟩
  · rw [h1]; exact hp
  · rw [h1, List.pairwise_append]
    refine ⟨hp, List.pairwise_singleton _ _, ?_⟩
    intro a ha b hb
    rw [List.mem_singleton] at hb
    subst hb
    simp at h2
    intro hc
    exact h2 a ha hc.symm

/-- One loop iteration never clears the `found` flag. -/
theorem placeChoice_found_mono (env : Env) (si : StudInfo) (st : PlaceState) (code : String)
    (st' : PlaceState) (h : placeChoice env si st code = .ok st') (hf : st.found = true) :
    st'.found = true := by
  unfold placeChoice at h
  split at h
  · injection h with h; subst h; exact hf
  · split at h
    · injection h with h; subst h; exact hf
    · split at h
      · injection h with h; subst h; exact hf
      · rename_i roster hro
        split at h
        · cases h
        · rename_i st1 hsr
          rw [searchRows_found_true env.parentSheet si _ st hf] at hsr
          injection hsr with hsr
          subst hsr
          split at h
          · cases h
          · rename_i cap hcap
            split at h
            · rename_i hcond
              exact absurd hcond.2 (by simp [hf])
            · split at h
              · rename_i hcond
                exact absurd hcond.2 (by simp [hf])
              · injection h with h; subst h; exact hf

/-- The whole choice loop preserves pairwise non-session-equivalence. -/
theorem placeLoop_pairwise (env : Env) (si : StudInfo) :
    ∀ choices (st st' : PlaceState), placeLoop env si st choices = .ok st' →
      st.classes.Pairwise (fun a b => a.take 4 ≠ b.take 4) →
      st'.classes.Pairwise (fun a b => a.take 4 ≠ b.take 4) := by
  intro choices
  induction choices with
  | nil =>
    intro st st' h hp
    simp only [placeLoop, Except.ok.injEq] at h
    subst h
    exact hp
  | cons code rest ih =>
    intro st st' h hp
    simp only [placeLoop] at h
    split at h
    · rename_i st1 h1
      exact ih st1 st' h (placeChoice_pairwise env si st code st1 h1 hp)
    · cases h

/-- The whole choice loop never clears the `found` flag. -/
theorem placeLoop_found_mono (env : Env) (si : StudInfo) :
    ∀ choices (st st' : PlaceState), placeLoop env si st choices = .ok st' →
      st.found = true → st'.found = true := by
  intro choices
  induction choices with
  | nil =>
    intro st st' h hf
    simp only [placeLoop, Except.ok.injEq] at h
    subst h
    exact hf
  | cons code rest ih =>
    intro st st' h hf
    simp only [placeLoop] at h
    split at h
    · rename_i st1 h1
      exact ih st1 st' h (placeChoice_found_mono env si st code st1 h1 hf)
    · cases h

/-! ## The claims -/

/-- C1: the capacity invariant fails on the code.  Ann Lee is matched on
the roster of `11111`, which sets the call-wide `found` flag; her second
choice `22221` — a class whose roster already holds `capacity = 1`
students and on which she has no row — is then accepted through the
`elif found` branch with no occupancy check, and `write_placements` would
append a new row for her (her identifier `u1` is not on that roster), so
class `22221` ends the run with 2 > 1 students. -/
theorem capacity_exceeded_at_found_leak :
    place_student envA siA studA offA ["11111", "22221"] = .ok stFinalA
    ∧ stFinalA.classes = ["11111", "22221"]
    ∧ lookupCap (mainSheet envA) "22221" = .ok 1
    ∧ (rosterUuids rosterA2).length = 1
    ∧ writesRowFor (rosterUuids rosterA2) stFinalA.id = true := by decide

/-- C2 counterexample: a choice whose code has a roster and on whose roster
the student is not seated (the only data row of `rosterA2` is the stranger
Bob Oh) is accepted even though already-listed count (1) plus batch offset
(0) is not strictly below the capacity (1): the claimed if-and-only-if
fails once the student was matched on an earlier choice's roster. -/
theorem full_class_accepted_when_found_elsewhere :
    place_student envA siA studA offA ["11111", "22221"] = .ok stFinalA
    ∧ rosterA2 = [rosterHeader, ["1", "u2", "Bob", "Oh", "bob@x.com", "", "p1"]]
    ∧ stFinalA.unaccepted = []
    ∧ "22221" ∈ stFinalA.classes
    ∧ lookupCap (mainSheet envA) "22221" = .ok 1
    ∧ ((rosterNames rosterA2).length : Int) - 1 + offGet offA "22221" = 1 := by decide

/-- C2 (amended): while the student has not yet been matched on any
roster (`found` still false, before and after this choice's search), a
choice with a roster is accepted — appending the code and bumping that
code's batch offset — exactly when already-listed count plus batch offset
is strictly below the capacity, and is classified full exactly
otherwise. -/
theorem place_choice_capacity_decision (env : Env) (si : StudInfo) (st : PlaceState)
    (code : String) (roster : Spreadsheet) (st1 : PlaceState) (cap : Int)
    (hb : pyStrip code ≠ "")
    (hs : st.classes.any (fun c => decide (code.take 4 = c.take 4)) = false)
    (hr : lookupSheet env.sheetData code = some roster)
    (hsr : searchRows env.parentSheet si st ((rosterNames roster).drop 1) = .ok st1)
    (hf1 : st1.found = false)
    (hc : lookupCap (mainSheet env) code = .ok cap) :
    st1.offsets = st.offsets
    ∧ (((rosterNames roster).length : Int) - 1 + offGet st.offsets code < cap →
        placeChoice env si st code =
          .ok { st1 with classes := st1.classes ++ [code],
                         offsets := offBump st1.offsets code })
    ∧ (cap ≤ ((rosterNames roster).length : Int) - 1 + offGet st.offsets code →
        placeChoice env si st code = .ok { st1 with unaccepted := st1.unaccepted ++ [code] }) := by
  have hfr := searchRows_frame env.parentSheet si _ st st1 hsr
  refine ⟨hfr.2.2.2, ?_, ?_⟩
  · intro hocc
    rw [← hfr.2.2.2] at hocc
    unfold placeChoice
    rw [if_neg hb, if_neg (by simp [hs])]
    simp only [hr, hsr, hc]
    rw [if_pos ⟨hocc, hf1⟩]
  · intro hocc
    rw [← hfr.2.2.2] at hocc
    unfold placeChoice
    rw [if_neg hb, if_neg (by simp [hs])]
    simp only [hr, hsr, hc]
    rw [if_neg (fun hcon => absurd hcon.1 (not_lt.mpr hocc)), if_pos ⟨hocc, hf1⟩]

/-- C2 witness: for the brand-new student Cam on `envB`, the full first
choice `31111` is classified full by the theorem, and the whole run over
the session-equivalent alternatives `[31111, 31112, 31113]` places Cam
into `31112` (one open seat) and not into `31113`. -/
theorem place_choice_capacity_decision_witness :
    (pyStrip "31111" ≠ ""
      ∧ st0B.classes.any (fun c => decide ("31111".take 4 = c.take 4)) = false
      ∧ lookupSheet envB.sheetData "31111" = some rosterB1
      ∧ searchRows envB.parentSheet siB st0B ((rosterNames rosterB1).drop 1) = .ok st0B
      ∧ st0B.found = false
      ∧ lookupCap (mainSheet envB) "31111" = .ok 1
      ∧ (1 : Int) ≤ ((rosterNames rosterB1).length : Int) - 1 + offGet st0B.offsets "31111")
    ∧ placeChoice envB siB st0B "31111" = .ok { st0B with unaccepted := st0B.unaccepted ++ ["31111"] }
    ∧ place_student envB siB studB offB ["31111", "31112", "31113"] = .ok stFinalB :=
  ⟨⟨by decide, by decide, by decide, by decide, by decide, by decide, by decide⟩,
    (place_choice_capacity_decision envB siB st0B "31111" rosterB1 st0B 1
      (by decide) (by decide) (by decide) (by decide) (by decide) (by decide)).2.2 (by decide),
    by decide⟩

/-- C3: a student found already seated on the choice's roster by natural
key is always accepted regardless of occupancy (the capacity value plays
no role in the conclusion), is re-seated under an identifier taken from
the roster's uuid column, the batch offsets are not touched, and
`write_placements` appends no duplicate row because that identifier is
already among the roster's listed students. -/
theorem reseat_always_accepted (env : Env) (si : StudInfo) (st : PlaceState) (code : String)
    (roster : Spreadsheet) (st1 : PlaceState) (cap : Int)
    (hb : pyStrip code ≠ "")
    (hs : st.classes.any (fun c => decide (code.take 4 = c.take 4)) = false)
    (hr : lookupSheet env.sheetData code = some roster)
    (hf0 : st.found = false)
    (hsr : searchRows env.parentSheet si st ((rosterNames roster).drop 1) = .ok st1)
    (hf1 : st1.found = true)
    (hc : lookupCap (mainSheet env) code = .ok cap) :
    placeChoice env si st code = .ok { st1 with classes := st1.classes ++ [code] }
    ∧ st1.offsets = st.offsets
    ∧ st1.id ∈ rosterUuids roster
    ∧ writesRowFor (rosterUuids roster) st1.id = false := by
  have hfr := searchRows_frame env.parentSheet si _ st st1 hsr
  have hid := searchRows_id_in_uuids env.parentSheet si roster st st1 hsr hf0 hf1
  refine ⟨?_, hfr.2.2.2, hid, ?_⟩
  · unfold placeChoice
    rw [if_neg hb, if_neg (by simp [hs])]
    simp only [hr, hsr, hc, hf1, Bool.true_eq_false, and_false, if_false, if_true]
  · simp [writesRowFor, hid]

/-- C3 witness: Ann Lee is found on the roster of `11111` (capacity 1,
already full with her own row) and is accepted anyway, re-seated as `u1`,
with offsets untouched and no duplicate row written. -/
theorem reseat_always_accepted_witness :
    (pyStrip "11111" ≠ ""
      ∧ st0A.classes.any (fun c => decide ("11111".take 4 = c.take 4)) = false
      ∧ lookupSheet envA.sheetData "11111" = some rosterA1
      ∧ st0A.found = false
      ∧ searchRows envA.parentSheet siA st0A ((rosterNames rosterA1).drop 1) = .ok st1A
      ∧ st1A.found = true
      ∧ lookupCap (mainSheet envA) "11111" = .ok 1)
    ∧ (placeChoice envA siA st0A "11111" = .ok { st1A with classes := st1A.classes ++ ["11111"] }
      ∧ st1A.offsets = st0A.offsets
      ∧ st1A.id ∈ rosterUuids rosterA1
      ∧ writesRowFor (rosterUuids rosterA1) st1A.id = false) :=
  ⟨⟨by decide, by decide, by decide, by decide, by decide, by decide, by decide⟩,
    reseat_always_accepted envA siA st0A "11111" rosterA1 st1A 1
      (by decide) (by decide) (by decide) (by decide) (by decide) (by decide) (by decide)⟩

/-- C4 counterexample: a student already holding three (pairwise
non-session-equivalent) classes has a fourth class accepted by
`place_student` with no exception of any kind — the call returns normally,
the fourth code is appended, and the following bogus choice is still
processed (classified invalid), so nothing halts. -/
theorem fourth_class_accepted_without_error :
    place_student envC siC studC offC ["44441", "99999"] = .ok stFinalC
    ∧ stFinalC.classes.length = 4
    ∧ stFinalC.invalid = ["99999"] := by decide

/-- C4 (amended): the enrollment limit lives only in
`Student.set_classes`, which rejects any list longer than
`MAX_ENROLLMENTS = 3` with a `ValueError`; `place_student` appends
accepted codes directly, never calls that check, and therefore accepts a
fourth class without error and keeps processing the remaining choices. -/
theorem enrollment_limit_only_in_set_classes (cs : List String)
    (h : Student.MAX_ENROLLMENTS < cs.length) :
    Student.set_classes cs = .error "A Student cannot have more than MAX_ENROLLMENTS classes."
    ∧ place_student envC siC studC offC ["44441", "99999"] = .ok stFinalC := by
  constructor
  · unfold Student.set_classes
    rw [if_pos h]
  · decide

/-- C4 witness: the four-element class list is rejected by
`Student.set_classes`, while the allocation pass that produced it
returned without error. -/
theorem enrollment_limit_only_in_set_classes_witness :
    Student.MAX_ENROLLMENTS < (["11111", "22221", "33331", "44441"] : List String).length
    ∧ Student.set_classes ["11111", "22221", "33331", "44441"] =
        .error "A Student cannot have more than MAX_ENROLLMENTS classes."
    ∧ place_student envC siC studC offC ["44441", "99999"] = .ok stFinalC :=
  ⟨by decide,
    (enrollment_limit_only_in_set_classes ["11111", "22221", "33331", "44441"] (by decide)).1,
    (enrollment_limit_only_in_set_classes ["11111", "22221", "33331", "44441"] (by decide)).2⟩

/-- C5: a choice that is session-equivalent (same first 4 characters) to a
code the student already holds is skipped entirely — the state, including
the classification lists and batch offsets, is returned unchanged — and
consequently the whole choice loop preserves the invariant that no two
held codes are session-equivalent. -/
theorem session_equiv_skip_and_invariant (env : Env) (si : StudInfo) :
    (∀ (st : PlaceState) (code : String),
        st.classes.any (fun c => decide (code.take 4 = c.take 4)) = true →
        placeChoice env si st code = .ok st)
    ∧ (∀ (st : PlaceState) (choices : List String) (st' : PlaceState),
        st.classes.Pairwise (fun a b => a.take 4 ≠ b.take 4) →
        placeLoop env si st choices = .ok st' →
        st'.classes.Pairwise (fun a b => a.take 4 ≠ b.take 4)) := by
  constructor
  · intro st code hany
    unfold placeChoice
    simp [hany]
  · intro st choices st' hp h
    exact placeLoop_pairwise env si choices st st' h hp

/-- C5 witness: Eve holds `11111`, so the session-equivalent `11119` is
skipped with the state unchanged; and a full run keeps her class list
pairwise non-session-equivalent. -/
theorem session_equiv_skip_and_invariant_witness :
    (stFinalD.classes.any (fun c => decide ("11119".take 4 = c.take 4)) = true
      ∧ placeChoice envD siD stFinalD "11119" = .ok stFinalD)
    ∧ (st0D.classes.Pairwise (fun a b => a.take 4 ≠ b.take 4)
      ∧ placeLoop envD siD st0D ["11111", "11119"] = .ok stFinalD
      ∧ stFinalD.classes.Pairwise (fun a b => a.take 4 ≠ b.take 4)) :=
  ⟨⟨by decide, (session_equiv_skip_and_invariant envD siD).1 stFinalD "11119" (by decide)⟩,
    ⟨List.Pairwise.nil, by decide,
      (session_equiv_skip_and_invariant envD siD).2 st0D ["11111", "11119"] stFinalD
        List.Pairwise.nil (by decide)⟩⟩

/-- C6 counterexample: the non-blank code `11119` has no roster, yet it is
not classified invalid — Eve already holds the session-equivalent
`11111`, and the session-equivalence skip fires before the roster lookup,
so the run ends with an empty invalid list. -/
theorem rosterless_code_not_classified_invalid :
    place_student envD siD studD offD ["11111", "11119"] = .ok stFinalD
    ∧ lookupSheet envD.sheetData "11119" = none
    ∧ pyStrip "11119" ≠ ""
    ∧ stFinalD.invalid = [] := by decide

/-- C6 (amended): a non-blank choice code that is not session-equivalent
to a held class and has no corresponding roster is classified invalid
with nothing else mutated (the returned state differs only in the invalid
list), and the loop simply continues with the remaining choices. -/
theorem invalid_code_classification (env : Env) (si : StudInfo) (st : PlaceState) (code : String)
    (hb : pyStrip code ≠ "")
    (hs : st.classes.any (fun c => decide (code.take 4 = c.take 4)) = false)
    (hr : lookupSheet env.sheetData code = none) :
    placeChoice env si st code = .ok { st with invalid := st.invalid ++ [code] }
    ∧ ∀ rest, placeLoop env si st (code :: rest) =
        placeLoop env si { st with invalid := st.invalid ++ [code] } rest := by
  have h1 : placeChoice env si st code = .ok { st with invalid := st.invalid ++ [code] } := by
    unfold placeChoice
    rw [if_neg hb, if_neg (by simp [hs])]
    simp only [hr]
  exact ⟨h1, fun rest => by simp only [placeLoop, h1]⟩

/-- C6 witness: the unknown code `77777` (not session-equivalent to
anything Eve holds) is classified invalid with no other mutation. -/
theorem invalid_code_classification_witness :
    (pyStrip "77777" ≠ ""
      ∧ st0D.classes.any (fun c => decide ("77777".take 4 = c.take 4)) = false
      ∧ lookupSheet envD.sheetData "77777" = none)
    ∧ placeChoice envD siD st0D "77777" = .ok { st0D with invalid := st0D.invalid ++ ["77777"] } :=
  ⟨⟨by decide, by decide, by decide⟩,
    (invalid_code_classification envD siD st0D "77777" (by decide) (by decide) (by decide)).1⟩

/-- C7 counterexample: the roster of `11111` seats Ann Lee (uuid `u1`,
email `ann@x.com`), but a new submission for the same (first, last,
email) with a differently named parent is not matched — the search
compares parent names, never the email — so the same natural key resolves
to the fresh identifier `s-fresh` and `write_placements` would append a
duplicate row for her. -/
theorem same_natural_key_resolves_to_new_identifier :
    place_student envE siE studE offE ["11111"] = .ok stFinalE
    ∧ rosterA1.get? 1 = some ["1", "u1", "Ann", "Lee", "ann@x.com", "", "p1"]
    ∧ stFinalE.id = some "s-fresh"
    ∧ some "u1" ∈ rosterUuids rosterA1
    ∧ writesRowFor (rosterUuids rosterA1) stFinalE.id = true := by decide

/-- C7 (amended): parent resolution by the normalized key (trimmed first
and last name, lowercased email) is idempotent — resolving the same key
twice returns the same identifier and adds no second entry; a key already
present matches without creating an entry; a fresh key creates exactly
one entry under the fresh identifier.  (Student resolution, by contrast,
keys on names corroborated by the parent's name, not on the email.) -/
theorem resolve_parent_idempotent (ps : List ParentR) (f l e : String)
    (c1 c2 : Option String) (g1 g2 : String)
    (hf : pyStrip f = f) (hl : pyStrip l = l) (he : pyStrip e = e) :
    ((resolveParent (resolveParent ps f l e c1 g1).1 f l e c2 g2).2 =
      (resolveParent ps f l e c1 g1).2)
    ∧ ((resolveParent (resolveParent ps f l e c1 g1).1 f l e c2 g2).1.length =
      (resolveParent ps f l e c1 g1).1.length)
    ∧ ((∃ p ∈ ps, p.first = f ∧ p.last = l ∧ p.email = pyLower e) →
        (resolveParent ps f l e c1 g1).1.length = ps.length)
    ∧ ((∀ p ∈ ps, ¬(p.first = f ∧ p.last = l ∧ p.email = pyLower e)) →
        (resolveParent ps f l e c1 g1).2 = g1 ∧
        (resolveParent ps f l e c1 g1).1.length = ps.length + 1) := by
  induction ps with
  | nil =>
    refine ⟨?_, ?_, ?_, ?_⟩
    · simp [resolveParent, mkParent, hf, hl, he]
    · simp [resolveParent, mkParent, hf, hl, he]
    · rintro ⟨p, hp, -⟩
      cases hp
    · intro _
      simp [resolveParent]
  | cons p t ih =>
    by_cases hm : p.first = f ∧ p.last = l ∧ p.email = pyLower e
    · refine ⟨?_, ?_, ?_, ?_⟩
      · simp [resolveParent, hm]
      · simp [resolveParent, hm]
      · intro _
        simp [resolveParent, hm]
      · intro hall
        exact absurd hm (hall p (List.mem_cons_self p t))
    · refine ⟨?_, ?_, ?_, ?_⟩
      · simp only [resolveParent, if_neg hm]
        exact ih.1
      · simp only [resolveParent, if_neg hm, List.length_cons]
        rw [ih.2.1]
      · rintro ⟨q, hq, hkey⟩
        rcases List.mem_cons.mp hq with rfl | hq
        · exact absurd hkey hm
        · simp only [resolveParent, if_neg hm, List.length_cons]
          rw [ih.2.2.1 ⟨q, hq, hkey⟩]
      · intro hall
        have ht := ih.2.2.2 (fun q hq => hall q (List.mem_cons_of_mem p hq))
        simp only [resolveParent, if_neg hm, List.length_cons]
        exact ⟨ht.1, by rw [ht.2]⟩

/-- C7 witness: resolving Pat Lee twice against an empty registry returns
the identifier of the entry created by the first call and leaves the
registry at one entry. -/
theorem resolve_parent_idempotent_witness :
    (pyStrip "Pat" = "Pat" ∧ pyStrip "Lee" = "Lee" ∧ pyStrip "pat@x.com" = "pat@x.com")
    ∧ ((resolveParent (resolveParent [] "Pat" "Lee" "pat@x.com" (some "s1") "g1").1
          "Pat" "Lee" "pat@x.com" (some "s2") "g2").2 =
        (resolveParent [] "Pat" "Lee" "pat@x.com" (some "s1") "g1").2)
    ∧ ((resolveParent (resolveParent [] "Pat" "Lee" "pat@x.com" (some "s1") "g1").1
          "Pat" "Lee" "pat@x.com" (some "s2") "g2").1.length =
        (resolveParent [] "Pat" "Lee" "pat@x.com" (some "s1") "g1").1.length) :=
  ⟨⟨by decide, by decide, by decide⟩,
    (resolve_parent_idempotent [] "Pat" "Lee" "pat@x.com" (some "s1") (some "s2") "g1" "g2"
      (by decide) (by decide) (by decide)).1,
    (resolve_parent_idempotent [] "Pat" "Lee" "pat@x.com" (some "s1") (some "s2") "g1" "g2"
      (by decide) (by decide) (by decide)).2.1⟩

/-- C8: with the header row present, issuing the same notification twice
for an identical (student full name, recipients, code) results in exactly
one send and one appended log row — the second attempt finds the row and
does nothing — and an attempt whose triple is already in the durable log
sends nothing and appends nothing. -/
theorem notify_once_idempotent (info : List NotifEntry) (fullName p1e p2e code : String)
    (hheader : info ≠ []) :
    ((notifyOnce (notifyOnce info fullName p1e p2e code).2 fullName p1e p2e code).1 = false)
    ∧ ((notifyOnce (notifyOnce info fullName p1e p2e code).2 fullName p1e p2e code).2 =
        (notifyOnce info fullName p1e p2e code).2)
    ∧ (notifMatch info fullName [p1e, p2e] code = true →
        (notifyOnce info fullName p1e p2e code).1 = false ∧
        (notifyOnce info fullName p1e p2e code).2 = info)
    ∧ (notifMatch info fullName [p1e, p2e] code = false →
        (notifyOnce info fullName p1e p2e code).1 = true ∧
        (notifyOnce info fullName p1e p2e code).2.length = info.length + 1) := by
  by_cases hm : notifMatch info fullName [p1e, p2e] code = true
  · simp [notifyOnce, hm]
  · have hm2 : notifMatch info fullName [p1e, p2e] code = false := by
      cases h : notifMatch info fullName [p1e, p2e] code
      · rfl
      · exact absurd h hm
    have happ : notifMatch (info ++ [(fullName, p1e, p2e, code)])
        fullName [p1e, p2e] code = true := by
      obtain ⟨a, t, rfl⟩ : ∃ a t, info = a :: t := by
        cases info with
        | nil => exact absurd rfl hheader
        | cons a t => exact ⟨a, t, rfl⟩
      simp [notifMatch]
    simp [notifyOnce, hm2, happ]

/-- C8 witness: against a header-only log, the first attempt for Ann Lee
on `21123` sends and logs; the immediately repeated identical attempt
sends nothing and leaves the log unchanged. -/
theorem notify_once_idempotent_witness :
    (logH ≠ [])
    ∧ ((notifyOnce (notifyOnce logH "Ann Lee" "pat@x.com" "sam@x.com" "21123").2
          "Ann Lee" "pat@x.com" "sam@x.com" "21123").1 = false)
    ∧ ((notifyOnce (notifyOnce logH "Ann Lee" "pat@x.com" "sam@x.com" "21123").2
          "Ann Lee" "pat@x.com" "sam@x.com" "21123").2 =
        (notifyOnce logH "Ann Lee" "pat@x.com" "sam@x.com" "21123").2) :=
  ⟨by decide,
    (notify_once_idempotent logH "Ann Lee" "pat@x.com" "sam@x.com" "21123" (by decide)).1,
    (notify_once_idempotent logH "Ann Lee" "pat@x.com" "sam@x.com" "21123" (by decide)).2.1⟩

/-- C9: a student who ends the allocation pass with zero accepted classes
is excluded from the persisted registry entirely — the registry update is
the identity, so no student entry is added and no parent gains a child
back-reference. -/
theorem zero_classes_not_registered (rs : RegState) (p1f p1l p1e p2f p2l p2e : String)
    (stud : StudentR) (g1 g2 : String) (h : stud.classes = []) :
    registerStudent rs p1f p1l p1e p2f p2l p2e stud g1 g2 = rs := by
  unfold registerStudent
  rw [h]
  simp

/-- C9 witness: registering a student with no accepted classes leaves a
registry holding one parent and no students exactly as it was. -/
theorem zero_classes_not_registered_witness :
    studZ.classes = []
    ∧ registerStudent rs0 "Pat" "Lee" "pat@x.com" "" "" "" studZ "g1" "g2" = rs0 :=
  ⟨rfl, zero_classes_not_registered rs0 "Pat" "Lee" "pat@x.com" "" "" "" studZ "g1" "g2" rfl⟩

/-- C10: once the `found` flag is set it is never cleared for the rest of
the call, and any later choice that has a roster and is not
session-equivalent to a held class is then accepted with no occupancy
check (the capacity value is irrelevant to the conclusion) and without
touching that code's batch offset. -/
theorem found_flag_global_accept (env : Env) (si : StudInfo) (st : PlaceState) (code : String)
    (roster : Spreadsheet) (cap : Int)
    (hf : st.found = true)
    (hb : pyStrip code ≠ "")
    (hs : st.classes.any (fun c => decide (code.take 4 = c.take 4)) = false)
    (hr : lookupSheet env.sheetData code = some roster)
    (hc : lookupCap (mainSheet env) code = .ok cap) :
    placeChoice env si st code = .ok { st with classes := st.classes ++ [code] }
    ∧ (∀ (st2 st3 : PlaceState) (choices : List String),
        placeLoop env si st2 choices = .ok st3 → st2.found = true → st3.found = true) := by
  constructor
  · have hsr := searchRows_found_true env.parentSheet si ((rosterNames roster).drop 1) st hf
    unfold placeChoice
    rw [if_neg hb, if_neg (by simp [hs])]
    simp only [hr, hsr, hc, hf, Bool.true_eq_false, and_false, if_false, if_true]
  · intro st2 st3 choices h hfd
    exact placeLoop_found_mono env si choices st2 st3 h hfd

/-- C10 witness: with the flag already set after the match on `11111`,
the full class `22221` (capacity 1, one seated student) is accepted with
unchanged offsets. -/
theorem found_flag_global_accept_witness :
    (st2A.found = true
      ∧ pyStrip "22221" ≠ ""
      ∧ st2A.classes.any (fun c => decide ("22221".take 4 = c.take 4)) = false
      ∧ lookupSheet envA.sheetData "22221" = some rosterA2
      ∧ lookupCap (mainSheet envA) "22221" = .ok 1)
    ∧ placeChoice envA siA st2A "22221" = .ok { st2A with classes := st2A.classes ++ ["22221"] } :=
  ⟨⟨by decide, by decide, by decide, by decide, by decide⟩,
    (found_flag_global_accept envA siA st2A "22221" rosterA2 1
      (by decide) (by decide) (by decide) (by decide) (by decide)).1⟩
